import Mathlib

/-!
Verification of the Regional Projection Calculator of the climate
dashboard (src/src/App.tsx).  JavaScript numbers are modelled as exact
rationals; `Number.prototype.toFixed(1)` is modelled following the
ECMAScript algorithm (take the sign first, then round the magnitude to
the nearest tenth, ties towards the larger integer of tenths).
-/

/-- The seven region identifiers (`regions` array, App.tsx lines 221–229). -/
inductive Region where
  | Global
  | NorthAmerica
  | Europe
  | Asia
  | Africa
  | SouthAmerica
  | Oceania
deriving DecidableEq

/-- The string identifier of each region, as listed in the `regions` array. -/
def regionName : Region → String
  | .Global => "Global"
  | .NorthAmerica => "North America"
  | .Europe => "Europe"
  | .Asia => "Asia"
  | .Africa => "Africa"
  | .SouthAmerica => "South America"
  | .Oceania => "Oceania"

/-- The `regions` array in source order. -/
def regions : List Region :=
  [.Global, .NorthAmerica, .Europe, .Asia, .Africa, .SouthAmerica, .Oceania]

/-- The per-region scaling factors record type (App.tsx lines 234–239). -/
structure RegionalFactors where
  temperature : ℚ
  precipitation : ℚ
  seaLevel : ℚ
  extremeEvents : ℚ
deriving DecidableEq

/-- The static `regionalFactors` table (App.tsx lines 240–247). -/
def regionalFactors : Region → RegionalFactors
  | .Global => ⟨1, 1, 1, 1⟩
  | .NorthAmerica => ⟨1.2, 1.3, 0.8, 1.1⟩
  | .Europe => ⟨1.1, 1.2, 0.9, 1.2⟩
  | .Asia => ⟨1.3, 1.4, 1.2, 1.3⟩
  | .Africa => ⟨1.4, 0.7, 1.1, 1.4⟩
  | .SouthAmerica => ⟨1.1, 1.5, 1.0, 1.2⟩
  | .Oceania => ⟨1.2, 0.9, 1.3, 1.1⟩

/-- One `(year, temperature)` entry of the historical series. -/
structure HistoricalPoint where
  year : ℤ
  temperature : ℚ
deriving DecidableEq

/-- `getRegionalHistoricalData` (App.tsx lines 250–261). -/
def getRegionalHistoricalData (region : Region) : List HistoricalPoint :=
  let factor := regionalFactors region
  [ ⟨1900, -0.2 * factor.temperature⟩,
    ⟨1950, 0 * factor.temperature⟩,
    ⟨2000, 0.5 * factor.temperature⟩,
    ⟨2023, 1.1 * factor.temperature⟩,
    ⟨2030, 1.3 * factor.temperature⟩,
    ⟨2040, 1.4 * factor.temperature⟩,
    ⟨2050, 1.6 * factor.temperature⟩ ]

/-- ECMAScript `x.toFixed(1)`: when `x < 0` emit a leading minus sign and
continue with `-x`; then pick the integer `n` of tenths nearest to the
magnitude, ties towards the larger `n`, and print `n` with one fractional
digit. -/
def toFixed1 (x : ℚ) : String :=
  let s := if x < 0 then "-" else ""
  let y := if x < 0 then -x else x
  let n := (⌊10 * y + 1 / 2⌋).toNat
  s ++ toString (n / 10) ++ "." ++ toString (n % 10)

/-- The signed number of tenths denoted by `toFixed1 x` (rounding half away
from zero, the composite of the sign split and the tie-to-larger rule). -/
def roundTenths (x : ℚ) : ℤ :=
  if x < 0 then -⌊10 * (-x) + 1 / 2⌋ else ⌊10 * x + 1 / 2⌋

/-- The four formatted metric strings returned by the calculator. -/
structure ProjectionMetrics where
  temperature : String
  precipitation : String
  seaLevel : String
  extremeEvents : String
deriving DecidableEq

/-- The `metrics` computation (App.tsx lines 297–313), the spec's
`computeMetrics(region, year)`. -/
def computeMetrics (selectedRegion : Region) (selectedYear : ℤ) : ProjectionMetrics :=
  let baseYear : ℤ := 2023
  let yearDiff : ℚ := ((selectedYear - baseYear : ℤ) : ℚ)
  let factors := regionalFactors selectedRegion
  let baseTempIncrease : ℚ := 1.1 + (yearDiff * (1.6 - 1.1) / (2050 - 2023))
  let basePrecipChange : ℚ := yearDiff * 5.3 / (2050 - 2023)
  let baseSeaLevelRise : ℚ := yearDiff * 26.3 / (2050 - 2023)
  let baseExtremeEvents : ℚ := yearDiff * 32 / (2050 - 2023)
  { temperature := toFixed1 (baseTempIncrease * factors.temperature),
    precipitation := toFixed1 (basePrecipChange * factors.precipitation),
    seaLevel := toFixed1 (baseSeaLevelRise * factors.seaLevel),
    extremeEvents := toFixed1 (baseExtremeEvents * factors.extremeEvents) }

/-- The spec's description of the metric computation, written from the
spec's own formulas: `yearDiff = year − 2023`, temperature base
`1.1 + yearDiff * (1.6 − 1.1) / 27`, precipitation base `yearDiff * 5.3 / 27`,
sea-level base `yearDiff * 26.3 / 27`, extreme-events base `yearDiff * 32 / 27`,
each multiplied by the region's factor and formatted to one decimal. -/
def computeMetricsSpec (region : Region) (year : ℤ) : ProjectionMetrics :=
  let yearDiff : ℚ := ((year - 2023 : ℤ) : ℚ)
  let f := regionalFactors region
  { temperature := toFixed1 ((1.1 + yearDiff * (1.6 - 1.1) / 27) * f.temperature),
    precipitation := toFixed1 (yearDiff * 5.3 / 27 * f.precipitation),
    seaLevel := toFixed1 (yearDiff * 26.3 / 27 * f.seaLevel),
    extremeEvents := toFixed1 (yearDiff * 32 / 27 * f.extremeEvents) }

/-- The unformatted temperature metric: base interpolation times the
region's temperature factor, as computed in App.tsx line 302/308. -/
def temperatureValue (r : Region) (y : ℤ) : ℚ :=
  (1.1 + ((y - 2023 : ℤ) : ℚ) * (1.6 - 1.1) / (2050 - 2023)) * (regionalFactors r).temperature

/-! Helper lemmas shared by several claim theorems. -/

/-- Unfolding the `metrics` body and evaluating the numeric constants shows
that the code computes exactly the spec's four formulas. -/
lemma computeMetrics_eq_spec (r : Region) (y : ℤ) :
    computeMetrics r y = computeMetricsSpec r y := by
  simp only [computeMetrics, computeMetricsSpec]
  norm_num

/-- Every `toFixed1` output ends in a dot followed by a single digit. -/
lemma toFixed1_shape (x : ℚ) :
    ∃ (t : String) (d : ℕ), d < 10 ∧ toFixed1 x = t ++ "." ++ toString d := by
  refine ⟨(if x < 0 then "-" else "") ++
      toString ((⌊10 * (if x < 0 then -x else x) + 1 / 2⌋).toNat / 10),
    (⌊10 * (if x < 0 then -x else x) + 1 / 2⌋).toNat % 10,
    Nat.mod_lt _ (by norm_num), rfl⟩

/-- Each region's temperature factor in the static table is positive. -/
lemma temperature_factor_pos (r : Region) : 0 < (regionalFactors r).temperature := by
  cases r <;> norm_num [regionalFactors]

/-- The unformatted temperature metric is monotone in the year. -/
lemma temperatureValue_mono (r : Region) {y1 y2 : ℤ} (h : y1 ≤ y2) :
    temperatureValue r y1 ≤ temperatureValue r y2 := by
  unfold temperatureValue
  have ht := temperature_factor_pos r
  have hc : ((y1 - 2023 : ℤ) : ℚ) ≤ ((y2 - 2023 : ℤ) : ℚ) := by
    exact_mod_cast sub_le_sub_right h 2023
  have key : ((y1 - 2023 : ℤ) : ℚ) * (1.6 - 1.1) / (2050 - 2023) ≤
      ((y2 - 2023 : ℤ) : ℚ) * (1.6 - 1.1) / (2050 - 2023) := by
    refine (div_le_div_iff_of_pos_right (by norm_num)).mpr ?_
    exact mul_le_mul_of_nonneg_right hc (by norm_num)
  exact mul_le_mul_of_nonneg_right (add_le_add_left key 1.1) ht.le

/-- Rounding half away from zero to tenths is monotone. -/
lemma roundTenths_mono {x y : ℚ} (h : x ≤ y) : roundTenths x ≤ roundTenths y := by
  unfold roundTenths
  by_cases hx : x < 0 <;> by_cases hy : y < 0 <;> simp only [hx, hy, if_pos, if_neg, if_true, if_false]
  · exact neg_le_neg (Int.floor_le_floor (by linarith))
  · have h1 : (0 : ℤ) ≤ ⌊10 * (-x) + 1 / 2⌋ := Int.le_floor.mpr (by push_cast; linarith)
    have h2 : (0 : ℤ) ≤ ⌊10 * y + 1 / 2⌋ := Int.le_floor.mpr (by push_cast; linarith)
    omega
  · exact absurd (lt_of_le_of_lt h hy) hx
  · exact Int.floor_le_floor (by linarith)

/-! Claim theorems. -/

/-- Claim C1: for every valid region and every integer year, `computeMetrics`
returns the four spec formulas (base linear interpolation with
`yearDiff = year - 2023`, multiplied by the region's factor), each formatted
as a string with exactly one fractional digit. -/
theorem computeMetrics_matches_spec_formulas (r : Region) (y : ℤ) :
    computeMetrics r y = computeMetricsSpec r y ∧
    (∃ (t : String) (d : ℕ), d < 10 ∧ (computeMetrics r y).temperature = t ++ "." ++ toString d) ∧
    (∃ (t : String) (d : ℕ), d < 10 ∧ (computeMetrics r y).precipitation = t ++ "." ++ toString d) ∧
    (∃ (t : String) (d : ℕ), d < 10 ∧ (computeMetrics r y).seaLevel = t ++ "." ++ toString d) ∧
    (∃ (t : String) (d : ℕ), d < 10 ∧ (computeMetrics r y).extremeEvents = t ++ "." ++ toString d) := by
  refine ⟨computeMetrics_eq_spec r y, ?_, ?_, ?_, ?_⟩ <;> exact toFixed1_shape _

/-- Claim C2: for every valid region, the historical series has exactly 7
entries, years `[1900, 1950, 2000, 2023, 2030, 2040, 2050]` in ascending
order, temperatures the base deviations `[-0.2, 0, 0.5, 1.1, 1.3, 1.4, 1.6]`
scaled by the region's temperature factor, and index 3 is the 2023 anchor. -/
theorem getRegionalHistoricalData_series (r : Region) :
    (getRegionalHistoricalData r).length = 7 ∧
    (getRegionalHistoricalData r).map HistoricalPoint.year =
      [1900, 1950, 2000, 2023, 2030, 2040, 2050] ∧
    (getRegionalHistoricalData r).map HistoricalPoint.temperature =
      [-0.2, 0, 0.5, 1.1, 1.3, 1.4, 1.6].map (fun b => b * (regionalFactors r).temperature) ∧
    (getRegionalHistoricalData r)[3]? = some ⟨2023, 1.1 * (regionalFactors r).temperature⟩ :=
  ⟨rfl, rfl, rfl, rfl⟩

/-- Claim C3: at year 2023 the temperature metric is `1.1 * factor` formatted
to one decimal and the other three metrics are the string `"0.0"`. -/
theorem computeMetrics_at_2023 (r : Region) :
    computeMetrics r 2023 =
      { temperature := toFixed1 (1.1 * (regionalFactors r).temperature),
        precipitation := "0.0", seaLevel := "0.0", extremeEvents := "0.0" } := by
  cases r <;> with_unfolding_all rfl

/-- Claim C4: at year 2050 the temperature metric is `1.6 * factor` formatted
to one decimal; for region Global at 2050 the four outputs are `"1.6"`,
`"5.3"`, `"26.3"`, `"32.0"`. -/
theorem computeMetrics_at_2050 (r : Region) :
    (computeMetrics r 2050).temperature = toFixed1 (1.6 * (regionalFactors r).temperature) ∧
    computeMetrics .Global 2050 =
      { temperature := "1.6", precipitation := "5.3", seaLevel := "26.3",
        extremeEvents := "32.0" } := by
  cases r <;> exact ⟨by with_unfolding_all rfl, by with_unfolding_all rfl⟩

/-- Claim C5: for a fixed region the temperature metric is monotonically
nondecreasing in the year, both before formatting (`temperatureValue`) and
after rounding to the tenths digit that `toFixed1` prints (`roundTenths`);
the formatted field of `computeMetrics` is exactly `toFixed1` of that value. -/
theorem computeMetrics_temperature_monotone (r : Region) (y1 y2 : ℤ) (h : y1 ≤ y2) :
    temperatureValue r y1 ≤ temperatureValue r y2 ∧
    roundTenths (temperatureValue r y1) ≤ roundTenths (temperatureValue r y2) ∧
    (computeMetrics r y1).temperature = toFixed1 (temperatureValue r y1) ∧
    (computeMetrics r y2).temperature = toFixed1 (temperatureValue r y2) :=
  ⟨temperatureValue_mono r h, roundTenths_mono (temperatureValue_mono r h), rfl, rfl⟩

/-- Claim C5 witness: instantiation at region Global, years 2030 ≤ 2040. -/
theorem computeMetrics_temperature_monotone_witness :
    (2030 : ℤ) ≤ 2040 ∧
    (temperatureValue .Global 2030 ≤ temperatureValue .Global 2040 ∧
     roundTenths (temperatureValue .Global 2030) ≤ roundTenths (temperatureValue .Global 2040) ∧
     (computeMetrics .Global 2030).temperature = toFixed1 (temperatureValue .Global 2030) ∧
     (computeMetrics .Global 2040).temperature = toFixed1 (temperatureValue .Global 2040)) :=
  ⟨by decide, computeMetrics_temperature_monotone .Global 2030 2040 (by decide)⟩

/-- Claim C6: the calculator is deterministic and pure; identical
`(region, year)` inputs always produce identical metric strings and an
identical historical series. -/
theorem calculator_deterministic (r r' : Region) (y y' : ℤ) (hr : r = r') (hy : y = y') :
    computeMetrics r y = computeMetrics r' y' ∧
    getRegionalHistoricalData r = getRegionalHistoricalData r' := by
  subst hr; subst hy; exact ⟨rfl, rfl⟩

/-- Claim C6 witness: instantiation at region Global, year 2050. -/
theorem calculator_deterministic_witness :
    Region.Global = Region.Global ∧ (2050 : ℤ) = 2050 ∧
    (computeMetrics .Global 2050 = computeMetrics .Global 2050 ∧
     getRegionalHistoricalData .Global = getRegionalHistoricalData .Global) :=
  ⟨rfl, rfl, calculator_deterministic .Global .Global 2050 2050 rfl rfl⟩

/-- Claim C7: no range validation on the year; outside `[2023, 2050]` the call
still returns the same linear formulas, extrapolated. -/
theorem computeMetrics_extrapolates (r : Region) (y : ℤ) (_h : y < 2023 ∨ 2050 < y) :
    computeMetrics r y = computeMetricsSpec r y ∧
    (computeMetrics r y).temperature = toFixed1 (temperatureValue r y) :=
  ⟨computeMetrics_eq_spec r y, rfl⟩

/-- Claim C7 witness: instantiation at region Global and out-of-range year 2100. -/
theorem computeMetrics_extrapolates_witness :
    ((2100 : ℤ) < 2023 ∨ (2050 : ℤ) < 2100) ∧
    (computeMetrics .Global 2100 = computeMetricsSpec .Global 2100 ∧
     (computeMetrics .Global 2100).temperature = toFixed1 (temperatureValue .Global 2100)) :=
  ⟨Or.inr (by decide), computeMetrics_extrapolates .Global 2100 (Or.inr (by decide))⟩

/-- Claim C8: for region Africa (temperature factor 1.4) and year 2023 the
temperature metric is the string `"1.5"` (1.1 * 1.4 = 1.54 → `"1.5"`). -/
theorem africa_2023_temperature : (computeMetrics .Africa 2023).temperature = "1.5" := by
  with_unfolding_all rfl

/-- Claim C9: the static tables enumerate exactly 7 distinct regions with the
expected identifiers, every region has exactly one factors entry, and all
four factors of every entry are strictly positive. -/
theorem regional_tables_invariant :
    regions.length = 7 ∧ regions.Nodup ∧
    regions.map regionName =
      ["Global", "North America", "Europe", "Asia", "Africa", "South America", "Oceania"] ∧
    (∀ r : Region, regions.count r = 1) ∧
    (∀ r : Region,
      0 < (regionalFactors r).temperature ∧ 0 < (regionalFactors r).precipitation ∧
      0 < (regionalFactors r).seaLevel ∧ 0 < (regionalFactors r).extremeEvents) := by
  refine ⟨rfl, by decide, rfl, fun r => by cases r <;> rfl, fun r => ?_⟩
  cases r <;> exact ⟨by norm_num [regionalFactors], by norm_num [regionalFactors],
    by norm_num [regionalFactors], by norm_num [regionalFactors]⟩

/-- Claim C10: the historical series depends only on the region's temperature
factor; two regions with equal temperature factors yield identical series, and
in particular Europe and South America (both factor 1.1) coincide. -/
theorem historical_series_depends_only_on_temperature_factor (r1 r2 : Region)
    (h : (regionalFactors r1).temperature = (regionalFactors r2).temperature) :
    getRegionalHistoricalData r1 = getRegionalHistoricalData r2 ∧
    getRegionalHistoricalData .Europe = getRegionalHistoricalData .SouthAmerica := by
  constructor
  · simp only [getRegionalHistoricalData, h]
  · with_unfolding_all rfl

/-- Claim C10 witness: instantiation at regions Europe and South America. -/
theorem historical_series_factor_witness :
    (regionalFactors .Europe).temperature = (regionalFactors .SouthAmerica).temperature ∧
    (getRegionalHistoricalData .Europe = getRegionalHistoricalData .SouthAmerica ∧
     getRegionalHistoricalData .Europe = getRegionalHistoricalData .SouthAmerica) :=
  ⟨rfl, historical_series_depends_only_on_temperature_factor .Europe .SouthAmerica rfl⟩
